import Mathlib

/-
Verification of the Asian-option Monte-Carlo pricer (class `AsianOptionMC`,
file `MC_Control_Varaite.ipynb`).

The pricer is embedded shallowly over the reals.  Floating-point numbers are
modelled as real numbers.  The two external numerical primitives the code
uses — `scipy.special.erf` and numpy's seeded normal generator — are not part
of the repository, so they are abstracted as function parameters:
`erf : ℝ → ℝ` stands for the error function, and `gauss : ℕ → ℕ → ℝ` stands
for the pseudo-random stream, `gauss seed k` being the k-th draw of
`np.random.randn` after `np.random.seed(seed)` (numpy's generator is a pure
function of the seed, which is exactly what this modelling captures).
`np.random.randn(simulations, M)` fills row-major, so entry (i, t) of the
draw matrix is draw number i*M + t of the stream.

The constructor `__init__` is modelled separately (`mkAsianOptionMC`) over
dynamically-typed inputs, including its `try/except ValueError` block, the
raw-value negativity checks and the derived-attribute computations, so that
its error behaviour (which exception escapes, and when a partially
initialised object is returned) can be settled precisely.
-/

namespace AsianOptionMC

noncomputable section

/-- The `option_type` field; the code accepts exactly the strings
`'call'` and `'put'`, represented here as an enumeration. -/
inductive OptionType
  | call
  | put
deriving DecidableEq

/-- A successfully constructed `AsianOptionMC` object, as used by the pricing
properties: the attributes set by `__init__` after validation.  `M` and
`simulations` are the results of Python's `int(...)` coercion. -/
structure Contract where
  option_type : OptionType
  S0 : ℝ
  strike : ℝ
  T : ℝ
  M : ℕ
  r : ℝ
  div : ℝ
  sigma : ℝ
  simulations : ℕ

/-- The spec's §3 numeric bounds together with positivity of the two integer
counts: the contracts every "for every valid contract" claim ranges over. -/
def Valid (c : Contract) : Prop :=
  0 ≤ c.S0 ∧ 0 ≤ c.strike ∧ 0 < c.T ∧ 0 < c.M ∧
    0 ≤ c.r ∧ 0 ≤ c.div ∧ 0 ≤ c.sigma ∧ 0 < c.simulations

/-- `self.time_unit = self.T / float(self.M)`. -/
def time_unit (c : Contract) : ℝ := c.T / (c.M : ℝ)

/-- `self.discount = np.exp(- self.r * self.T)`. -/
def discount (c : Contract) : ℝ := Real.exp (-c.r * c.T)

/-! ### Sample statistics (numpy `mean`, `std` with ddof = 0, covariance) -/

/-- `np.mean` of a length-`n` vector. -/
def vmean (n : ℕ) (v : ℕ → ℝ) : ℝ := (∑ i in Finset.range n, v i) / n

/-- Population variance (`np.std` squares this convention: ddof = 0). -/
def vvar (n : ℕ) (v : ℕ → ℝ) : ℝ :=
  (∑ i in Finset.range n, (v i - vmean n v) ^ 2) / n

/-- `np.std` of a length-`n` vector (population standard deviation). -/
def vstd (n : ℕ) (v : ℕ → ℝ) : ℝ := Real.sqrt (vvar n v)

/-- Population covariance of two length-`n` vectors. -/
def vcov (n : ℕ) (u v : ℕ → ℝ) : ℝ :=
  (∑ i in Finset.range n, (u i - vmean n u) * (v i - vmean n v)) / n

/-- Width `upper95 - lower95` of a returned `(mean, lower, upper)` triple. -/
def ciWidth (t : ℝ × ℝ × ℝ) : ℝ := t.2.2 - t.2.1

/-! ### The path simulator -/

/-- State of numpy's global generator: the seed it was last seeded with, and
how many draws have been consumed since. -/
structure RNGState where
  seed : ℕ
  pos : ℕ

/-- The draws read from a given generator state: the k-th value produced
after state `st` is draw `st.pos + k` of the stream of seed `st.seed`. -/
def draws (gauss : ℕ → ℕ → ℝ) (st : RNGState) (k : ℕ) : ℝ :=
  gauss st.seed (st.pos + k)

/-- One factor of the cumulative product in `price_path`:
`np.exp((r - 0.5*sigma**2)*time_unit + sigma*np.sqrt(time_unit)*z)`. -/
def gbm_step (c : Contract) (z : ℝ) : ℝ :=
  Real.exp ((c.r - 0.5 * c.sigma ^ 2) * time_unit c +
    c.sigma * Real.sqrt (time_unit c) * z)

/-- Entry (i, t) of
`S0 * np.cumprod(np.exp(... np.random.randn(simulations, M)), 1)`, given the
flat vector `z` of normal draws (entry (i, k) of the randn matrix is draw
number `i*M + k`). -/
def price_path_from_draws (c : Contract) (z : ℕ → ℝ) (i t : ℕ) : ℝ :=
  c.S0 * ∏ k in Finset.range (t + 1), gbm_step c (z (i * c.M + k))

/-- The `price_path` property with an explicit seed argument:
`np.random.seed(seed)` (position 0 of the stream of `seed`) followed by the
cumulative product over fresh draws. -/
def price_path_seeded (gauss : ℕ → ℕ → ℝ) (seed : ℕ) (c : Contract) :
    ℕ → ℕ → ℝ :=
  price_path_from_draws c (draws gauss ⟨seed, 0⟩)

/-- The `price_path` property as accessed by the estimators: being a property
access, the default `seed = 100` is always used. -/
def price_path (gauss : ℕ → ℕ → ℝ) (c : Contract) : ℕ → ℕ → ℝ :=
  price_path_seeded gauss 100 c

/-- The `price_path` matrix with its shape `(simulations, M)` in the type. -/
def price_path_matrix (gauss : ℕ → ℕ → ℝ) (c : Contract) :
    Matrix (Fin c.simulations) (Fin c.M) ℝ :=
  Matrix.of fun i t => price_path gauss c i.1 t.1

/-- One access of the `price_path` property, as a transition on the global
generator state: `np.random.seed(100)` discards the incoming state, and
`np.random.randn(simulations, M)` then consumes `simulations * M` draws of
the seed-100 stream.  Returns the produced matrix and the new state. -/
def price_path_access (gauss : ℕ → ℕ → ℝ) (c : Contract) (_st : RNGState) :
    (ℕ → ℕ → ℝ) × RNGState :=
  (price_path_from_draws c (draws gauss ⟨100, 0⟩), ⟨100, c.simulations * c.M⟩)

/-! ### The payoff evaluator and the plain estimator -/

/-- The `MCPayoff` property, as a function of the path matrix it reads:
discounted arithmetic-average payoff of path `i`
(`np.mean(price_path, 1)` is the row sum divided by `M`). -/
def MCPayoff_from (c : Contract) (paths : ℕ → ℕ → ℝ) (i : ℕ) : ℝ :=
  if c.option_type = OptionType.call then
    discount c * max ((∑ t in Finset.range c.M, paths i t) / (c.M : ℝ) - c.strike) 0
  else
    discount c * max (c.strike - (∑ t in Finset.range c.M, paths i t) / (c.M : ℝ)) 0

/-- The `MCPayoff` property: it reads the `price_path` property, hence the
seed-100 matrix. -/
def MCPayoff (gauss : ℕ → ℕ → ℝ) (c : Contract) : ℕ → ℝ :=
  MCPayoff_from c (price_path gauss c)

/-- The `value` property as a function of the path matrix:
`(MCvalue, lower_bound, upper_bound)` with
`MCvalue = np.mean(MCPayoff)`, bounds `MCvalue ∓ 1.96*np.std(MCPayoff)/sqrt(simulations)`. -/
def value_from (c : Contract) (paths : ℕ → ℕ → ℝ) : ℝ × ℝ × ℝ :=
  (vmean c.simulations (MCPayoff_from c paths),
   vmean c.simulations (MCPayoff_from c paths) -
     1.96 * vstd c.simulations (MCPayoff_from c paths) / Real.sqrt (c.simulations : ℝ),
   vmean c.simulations (MCPayoff_from c paths) +
     1.96 * vstd c.simulations (MCPayoff_from c paths) / Real.sqrt (c.simulations : ℝ))

/-- The `value` property. -/
def value (gauss : ℕ → ℕ → ℝ) (c : Contract) : ℝ × ℝ × ℝ :=
  value_from c (price_path gauss c)

/-! ### The analytic geometric option and the control-variate estimator -/

/-- `sigsqT = sigma**2 * T * (M+1) * (2*M+1) / (6*M*M)` as the code writes it. -/
def sigsqT (c : Contract) : ℝ :=
  c.sigma ^ 2 * c.T * ((c.M : ℝ) + 1) * (2 * (c.M : ℝ) + 1) / (6 * (c.M : ℝ) * (c.M : ℝ))

/-- `muT = 0.5 * sigsqT + (r - 0.5 * sigma**2) * T * (M+1) / (2*M)`. -/
def muT (c : Contract) : ℝ :=
  0.5 * sigsqT c + (c.r - 0.5 * c.sigma ^ 2) * c.T * ((c.M : ℝ) + 1) / (2 * (c.M : ℝ))

/-- The `GeometricAsianOption` property, with the error function abstracted:
the code's closed-form expression, which never consults `option_type`,
`simulations`, `div`, or the random stream. -/
def GeometricAsianOption (erf : ℝ → ℝ) (c : Contract) : ℝ :=
  discount c *
    (c.S0 * Real.exp (muT c) *
        (0.5 * (1 + erf (((Real.log (c.S0 / c.strike) + (muT c + 0.5 * sigsqT c)) /
            Real.sqrt (sigsqT c)) / Real.sqrt 2))) -
      c.strike *
        (0.5 * (1 + erf ((((Real.log (c.S0 / c.strike) + (muT c + 0.5 * sigsqT c)) /
            Real.sqrt (sigsqT c)) - Real.sqrt (sigsqT c)) / Real.sqrt 2))))

/-- Modelled from the spec: the §4.3 closed-form value written exactly as the
specification words it (`sigsqT = σ²·T·(M+1)(2M+1)/(6M²)`,
`muT = 0.5·sigsqT + (r − 0.5σ²)·T·(M+1)/(2M)`,
`d1 = (ln(S0/strike) + muT + 0.5·sigsqT)/√sigsqT`, `d2 = d1 − √sigsqT`,
`N(x) = 0.5·(1 + erf(x/√2))`,
`value = exp(−rT)·(S0·exp(muT)·N(d1) − strike·N(d2))`), kept as an
independent definition to compare against the code's formula. -/
def GeometricAsianOptionSpecForm (erf : ℝ → ℝ) (c : Contract) : ℝ :=
  let sq : ℝ := c.sigma ^ 2 * c.T * ((c.M : ℝ) + 1) * (2 * (c.M : ℝ) + 1) / (6 * (c.M : ℝ) ^ 2)
  let mu : ℝ := 0.5 * sq + (c.r - 0.5 * c.sigma ^ 2) * c.T * ((c.M : ℝ) + 1) / (2 * (c.M : ℝ))
  let d1 : ℝ := (Real.log (c.S0 / c.strike) + mu + 0.5 * sq) / Real.sqrt sq
  let d2 : ℝ := d1 - Real.sqrt sq
  let N : ℝ → ℝ := fun x => 0.5 * (1 + erf (x / Real.sqrt 2))
  Real.exp (-c.r * c.T) * (c.S0 * Real.exp mu * N d1 - c.strike * N d2)

/-- The per-path geometric average used by `value_with_control_variate`:
`np.exp((1/float(M)) * np.sum(np.log(price_path), 1))`. -/
def geometric_average_from (c : Contract) (paths : ℕ → ℕ → ℝ) (i : ℕ) : ℝ :=
  Real.exp ((1 / (c.M : ℝ)) * ∑ t in Finset.range c.M, Real.log (paths i t))

/-- The discounted geometric-average payoff (`MCpayoff_geometric`). -/
def MCpayoff_geometric_from (c : Contract) (paths : ℕ → ℕ → ℝ) (i : ℕ) : ℝ :=
  if c.option_type = OptionType.call then
    discount c * max (geometric_average_from c paths i - c.strike) 0
  else
    discount c * max (c.strike - geometric_average_from c paths i) 0

/-- The corrected per-path vector
`value_with_CV = MCPayoff + GeometricAsianOption - MCpayoff_geometric`. -/
def controlVariateVector (erf : ℝ → ℝ) (c : Contract) (paths : ℕ → ℕ → ℝ)
    (i : ℕ) : ℝ :=
  MCPayoff_from c paths i + GeometricAsianOption erf c -
    MCpayoff_geometric_from c paths i

/-- The `value_with_control_variate` property as a function of the path
matrix: mean of the corrected vector and its `∓ 1.96·std/√simulations`
bounds, returned as `(mean, lower, upper)`. -/
def value_with_control_variate_from (erf : ℝ → ℝ) (c : Contract)
    (paths : ℕ → ℕ → ℝ) : ℝ × ℝ × ℝ :=
  (vmean c.simulations (controlVariateVector erf c paths),
   vmean c.simulations (controlVariateVector erf c paths) -
     1.96 * vstd c.simulations (controlVariateVector erf c paths) /
       Real.sqrt (c.simulations : ℝ),
   vmean c.simulations (controlVariateVector erf c paths) +
     1.96 * vstd c.simulations (controlVariateVector erf c paths) /
       Real.sqrt (c.simulations : ℝ))

/-- The `value_with_control_variate` property: like `value`, it reads the
`price_path` property, hence the same seed-100 matrix. -/
def value_with_control_variate (erf : ℝ → ℝ) (gauss : ℕ → ℕ → ℝ)
    (c : Contract) : ℝ × ℝ × ℝ :=
  value_with_control_variate_from erf c (price_path gauss c)

/-! ### The constructor `__init__` over dynamically-typed inputs

`__init__` runs, in order:
1. a `try` block that stores `option_type` and then coerces and stores
   `S0, strike, T, M, r, div, sigma, simulations`; a `ValueError` from a
   coercion is caught and a message printed — execution continues with only
   the attributes set before the failure;
2. `if option_type != 'call' and option_type != 'put': raise ValueError`;
3. `if S0 < 0 or strike < 0 or T <= 0 or r < 0 or div < 0 or sigma < 0:`
   — evaluated left to right with short-circuit on the *raw* arguments, so a
   non-numeric argument raises `TypeError` when its comparison is reached —
   `raise ValueError`;
4. `self.time_unit = self.T / float(self.M)` — `AttributeError` if `self.M`
   was never set, `ZeroDivisionError` if `int(M) = 0`;
5. `self.discount = np.exp(-self.r * self.T)`.
A numeric argument is modelled as `RV.num x`; an argument whose `float()` /
`int()` coercion raises `ValueError` (e.g. a non-numeric string) as `RV.bad`.
-/

/-- A dynamically-typed constructor argument: a numeric value, or a value on
which numeric coercion raises `ValueError`. -/
inductive RV
  | num (x : ℝ)
  | bad

/-- Python `int(...)` on a float: truncation toward zero. -/
def pyInt (x : ℝ) : ℤ := if 0 ≤ x then ⌊x⌋ else ⌈x⌉

/-- `float` coercion of an argument, `none` meaning the coercion raised. -/
def RV.toR : RV → Option ℝ
  | .num x => some x
  | .bad => none

/-- `int` coercion of an argument, `none` meaning the coercion raised. -/
def RV.toZ : RV → Option ℤ
  | .num x => some (pyInt x)
  | .bad => none

/-- Whether numeric coercion of the argument succeeds. -/
def RV.isNum : RV → Bool
  | .num _ => true
  | .bad => false

/-- The attributes of the object under construction: `none` means the
attribute was never assigned (accessing it raises `AttributeError`). -/
structure ObjState where
  option_type : String
  S0 : Option ℝ
  strike : Option ℝ
  T : Option ℝ
  M : Option ℤ
  r : Option ℝ
  div : Option ℝ
  sigma : Option ℝ
  simulations : Option ℤ
  time_unit : Option ℝ
  discount : Option ℝ

/-- The exceptions the constructor can let escape. -/
inductive PyError
  | valueError
  | typeError
  | attributeError
  | zeroDivisionError
deriving DecidableEq

/-- Outcome of a constructor call: a returned object, or an exception. -/
inductive ConsResult
  | ok (o : ObjState)
  | err (e : PyError)

/-- The object state after the `try`/`except ValueError` block: each
attribute is set iff every earlier coercion succeeded and its own coercion
succeeds (the caught `ValueError` only produces a printed message). -/
def tryBlock (ot : String) (S0 strike T M r d sg sim : RV) : ObjState where
  option_type := ot
  S0 := S0.toR
  strike := if S0.isNum then strike.toR else none
  T := if S0.isNum && strike.isNum then T.toR else none
  M := if S0.isNum && strike.isNum && T.isNum then M.toZ else none
  r := if S0.isNum && strike.isNum && T.isNum && M.isNum then r.toR else none
  div := if S0.isNum && strike.isNum && T.isNum && M.isNum && r.isNum then
      d.toR else none
  sigma := if S0.isNum && strike.isNum && T.isNum && M.isNum && r.isNum &&
      d.isNum then sg.toR else none
  simulations := if S0.isNum && strike.isNum && T.isNum && M.isNum &&
      r.isNum && d.isNum && sg.isNum then sim.toZ else none
  time_unit := none
  discount := none

/-- The raw-value test `S0 < 0 or strike < 0 or T <= 0 or r < 0 or div < 0
or sigma < 0`, with Python's left-to-right short-circuit evaluation: a
non-numeric operand raises `TypeError` at its comparison. -/
def negChain (S0 strike T r d sg : RV) : Except PyError Bool :=
  match S0 with
  | .bad => .error .typeError
  | .num s0 =>
    if s0 < 0 then .ok true else
    match strike with
    | .bad => .error .typeError
    | .num k =>
      if k < 0 then .ok true else
      match T with
      | .bad => .error .typeError
      | .num t =>
        if t ≤ 0 then .ok true else
        match r with
        | .bad => .error .typeError
        | .num rr =>
          if rr < 0 then .ok true else
          match d with
          | .bad => .error .typeError
          | .num dv =>
            if dv < 0 then .ok true else
            match sg with
            | .bad => .error .typeError
            | .num sv => if sv < 0 then .ok true else .ok false

/-- The whole of `__init__`. -/
def mkAsianOptionMC (ot : String) (S0 strike T M r d sg sim : RV) :
    ConsResult :=
  let o := tryBlock ot S0 strike T M r d sg sim
  if ot ≠ "call" ∧ ot ≠ "put" then .err .valueError
  else
    match negChain S0 strike T r d sg with
    | .error e => .err e
    | .ok true => .err .valueError
    | .ok false =>
      match o.T with
      | none => .err .attributeError
      | some t =>
        match o.M with
        | none => .err .attributeError
        | some m =>
          if m = 0 then .err .zeroDivisionError
          else
            match o.r with
            | none => .err .attributeError
            | some rv =>
              .ok { o with time_unit := some (t / (m : ℝ)),
                           discount := some (Real.exp (-rv * t)) }

/-- Whether every attribute `__init__` is supposed to set was in fact set. -/
def isFullyConstructed (o : ObjState) : Bool :=
  o.S0.isSome && o.strike.isSome && o.T.isSome && o.M.isSome && o.r.isSome &&
    o.div.isSome && o.sigma.isSome && o.simulations.isSome &&
    o.time_unit.isSome && o.discount.isSome

/-! ### Definedness of the analytic formula on validated parameters

Validation admits `strike = 0`, `S0 = 0` and `sigma = 0`.  On such contracts
`GeometricAsianOption` hits undefined operations: `self.S0 / self.strike` is
a plain-Python float division, so `strike = 0` raises `ZeroDivisionError`;
`np.log(0)` (when `S0 = 0`) is `-inf`; and when `sigma = 0` the divisor
`np.sqrt(sigsqT)` is `0.0`, so `d1` is `±inf` or `nan`.  The checked
evaluator records the first hazard met in evaluation order, and otherwise
returns the real-valued closed form. -/

/-- A hazard met while evaluating `GeometricAsianOption`. -/
inductive EvalHazard
  | zeroDivisionError
  | logOfZero
  | divisionBySqrtZero
deriving DecidableEq

/-- `GeometricAsianOption` with its undefined operations made explicit. -/
def GeometricAsianOptionEval (erf : ℝ → ℝ) (c : Contract) :
    Except EvalHazard ℝ :=
  if c.strike = 0 then .error .zeroDivisionError
  else if c.S0 = 0 then .error .logOfZero
  else if c.sigma = 0 then .error .divisionBySqrtZero
  else .ok (GeometricAsianOption erf c)

/-! ### Concrete contracts used to instantiate the theorems -/

/-- A minimal valid contract (one step, one path). -/
def cW : Contract where
  option_type := .call
  S0 := 1
  strike := 1
  T := 1
  M := 1
  r := 0
  div := 0
  sigma := 0
  simulations := 1

/-- The §8 fixture contract:
`AsianOptionMC('call', 4., 4., 1., 100., .03, 0, .25, 10000)`. -/
def cFixture : Contract where
  option_type := .call
  S0 := 4
  strike := 4
  T := 1
  M := 100
  r := 0.03
  div := 0
  sigma := 0.25
  simulations := 10000

/-- The fixture contract with `strike = 0`: it passes every construction
check (`strike < 0` is false), yet `GeometricAsianOption` divides by it. -/
def cStrikeZero : Contract := { cFixture with strike := 0 }

/-- A two-path, two-step valid contract chosen so that the drift term of the
path simulator vanishes (`r = σ²/2`) and `σ·√Δt = 1`. -/
def cVR : Contract where
  option_type := .call
  S0 := 1
  strike := 1
  T := 1
  M := 2
  r := 1
  div := 0
  sigma := Real.sqrt 2
  simulations := 2

/-- A draw stream under which `cVR`'s two simulated paths are
`(5.05, 5.05)` and `(8, 2)`: arithmetic averages `5.05` and `5`, geometric
averages `5.05` and `4`. -/
def gaussVR : ℕ → ℕ → ℝ := fun _ n =>
  if n = 0 then Real.log (101 / 20)
  else if n = 1 then 0
  else if n = 2 then Real.log 8
  else if n = 3 then Real.log 2 - Real.log 8
  else 0

end

/-! ## Theorems -/

/-- Claim C1: `value` computes the per-path discounted arithmetic payoff
(arithmetic time-average of each simulated path, `max(avg - strike, 0)` for
a call and `max(strike - avg, 0)` for a put, multiplied by `exp(-r·T)`), and
returns the triple `(mean, mean - 1.96·std/√simulations,
mean + 1.96·std/√simulations)` over that payoff vector; consequently
`lower95 ≤ mean ≤ upper95` for every contract and every simulation count
≥ 1. -/
theorem value_correct (gauss : ℕ → ℕ → ℝ) (c : Contract)
    (h : 1 ≤ c.simulations) :
    (∀ i, MCPayoff_from c (price_path gauss c) i =
      Real.exp (-c.r * c.T) *
        (if c.option_type = OptionType.call then
          max ((∑ t in Finset.range c.M, price_path gauss c i t) / (c.M : ℝ) - c.strike) 0
        else
          max (c.strike - (∑ t in Finset.range c.M, price_path gauss c i t) / (c.M : ℝ)) 0)) ∧
    value gauss c =
      (vmean c.simulations (MCPayoff_from c (price_path gauss c)),
       vmean c.simulations (MCPayoff_from c (price_path gauss c)) -
         1.96 * vstd c.simulations (MCPayoff_from c (price_path gauss c)) /
           Real.sqrt (c.simulations : ℝ),
       vmean c.simulations (MCPayoff_from c (price_path gauss c)) +
         1.96 * vstd c.simulations (MCPayoff_from c (price_path gauss c)) /
           Real.sqrt (c.simulations : ℝ)) ∧
    ((value gauss c).2.1 ≤ (value gauss c).1 ∧
      (value gauss c).1 ≤ (value gauss c).2.2) := by
  refine ⟨fun i => ?_, rfl, ?_, ?_⟩
  · by_cases hc : c.option_type = OptionType.call <;>
      simp [MCPayoff_from, discount, hc]
  · have hs : 0 ≤ 1.96 * vstd c.simulations (MCPayoff_from c (price_path gauss c)) /
        Real.sqrt (c.simulations : ℝ) := by
      have h1 : 0 ≤ vstd c.simulations (MCPayoff_from c (price_path gauss c)) :=
        Real.sqrt_nonneg _
      positivity
    simp only [value, value_from]
    linarith
  · have hs : 0 ≤ 1.96 * vstd c.simulations (MCPayoff_from c (price_path gauss c)) /
        Real.sqrt (c.simulations : ℝ) := by
      have h1 : 0 ≤ vstd c.simulations (MCPayoff_from c (price_path gauss c)) :=
        Real.sqrt_nonneg _
      positivity
    simp only [value, value_from]
    linarith

/-- Witness for C1 at the concrete contract `cW`. -/
theorem value_correct_witness :
    1 ≤ cW.simulations ∧
    ((value (fun _ _ => 0) cW).2.1 ≤ (value (fun _ _ => 0) cW).1 ∧
      (value (fun _ _ => 0) cW).1 ≤ (value (fun _ _ => 0) cW).2.2) :=
  ⟨by norm_num [cW], (value_correct (fun _ _ => 0) cW (by norm_num [cW])).2.2⟩

/-- Claim C2: `value_with_control_variate` forms, for each path, the
geometric average `exp((1/M)·Σ ln(price_t))` of the same simulated path,
applies the same call/put payoff rule and the same discount `exp(-r·T)`,
takes the corrected per-path value
`arithmetic_payoff + analytic_geometric_value - geometric_payoff`, and
returns the mean of this corrected vector with its 95% bounds
`mean ∓ 1.96·std/√simulations` (so again `lower ≤ mean ≤ upper`). -/
theorem value_with_control_variate_correct (erf : ℝ → ℝ)
    (gauss : ℕ → ℕ → ℝ) (c : Contract) (h : 1 ≤ c.simulations) :
    (∀ i, controlVariateVector erf c (price_path gauss c) i =
      MCPayoff_from c (price_path gauss c) i + GeometricAsianOption erf c -
        Real.exp (-c.r * c.T) *
          (if c.option_type = OptionType.call then
            max (Real.exp ((1 / (c.M : ℝ)) *
              ∑ t in Finset.range c.M, Real.log (price_path gauss c i t)) - c.strike) 0
          else
            max (c.strike - Real.exp ((1 / (c.M : ℝ)) *
              ∑ t in Finset.range c.M, Real.log (price_path gauss c i t))) 0)) ∧
    value_with_control_variate erf gauss c =
      (vmean c.simulations (controlVariateVector erf c (price_path gauss c)),
       vmean c.simulations (controlVariateVector erf c (price_path gauss c)) -
         1.96 * vstd c.simulations (controlVariateVector erf c (price_path gauss c)) /
           Real.sqrt (c.simulations : ℝ),
       vmean c.simulations (controlVariateVector erf c (price_path gauss c)) +
         1.96 * vstd c.simulations (controlVariateVector erf c (price_path gauss c)) /
           Real.sqrt (c.simulations : ℝ)) ∧
    ((value_with_control_variate erf gauss c).2.1 ≤
        (value_with_control_variate erf gauss c).1 ∧
      (value_with_control_variate erf gauss c).1 ≤
        (value_with_control_variate erf gauss c).2.2) := by
  refine ⟨fun i => ?_, rfl, ?_, ?_⟩
  · by_cases hc : c.option_type = OptionType.call <;>
      simp [controlVariateVector, MCpayoff_geometric_from,
        geometric_average_from, discount, hc]
  · have hs : 0 ≤ 1.96 * vstd c.simulations (controlVariateVector erf c (price_path gauss c)) /
        Real.sqrt (c.simulations : ℝ) := by
      have h1 : 0 ≤ vstd c.simulations (controlVariateVector erf c (price_path gauss c)) :=
        Real.sqrt_nonneg _
      positivity
    simp only [value_with_control_variate, value_with_control_variate_from]
    linarith
  · have hs : 0 ≤ 1.96 * vstd c.simulations (controlVariateVector erf c (price_path gauss c)) /
        Real.sqrt (c.simulations : ℝ) := by
      have h1 : 0 ≤ vstd c.simulations (controlVariateVector erf c (price_path gauss c)) :=
        Real.sqrt_nonneg _
      positivity
    simp only [value_with_control_variate, value_with_control_variate_from]
    linarith

/-- Witness for C2 at the concrete contract `cW`. -/
theorem value_with_control_variate_correct_witness :
    1 ≤ cW.simulations ∧
    ((value_with_control_variate (fun _ => 0) (fun _ _ => 0) cW).2.1 ≤
        (value_with_control_variate (fun _ => 0) (fun _ _ => 0) cW).1 ∧
      (value_with_control_variate (fun _ => 0) (fun _ _ => 0) cW).1 ≤
        (value_with_control_variate (fun _ => 0) (fun _ _ => 0) cW).2.2) :=
  ⟨by norm_num [cW],
    (value_with_control_variate_correct (fun _ => 0) (fun _ _ => 0) cW
      (by norm_num [cW])).2.2⟩

/-- Claim C4: `price_path` is the cumulative product
`S_{t+1} = S_t · exp((r - 0.5σ²)·Δt + σ·√Δt·Z)` starting from `S0` (entry 0
is already one step from `S0`, as the code's `cumprod` makes it); it fills a
matrix of shape `(simulations, M)`; and the dividend yield `div` does not
enter the drift, so contracts differing only in `div` produce identical path
matrices. -/
theorem price_path_correct :
    (∀ (gauss : ℕ → ℕ → ℝ) (c : Contract) (i : ℕ),
      price_path gauss c i 0 =
        c.S0 * Real.exp ((c.r - 0.5 * c.sigma ^ 2) * time_unit c +
          c.sigma * Real.sqrt (time_unit c) * draws gauss ⟨100, 0⟩ (i * c.M))) ∧
    (∀ (gauss : ℕ → ℕ → ℝ) (c : Contract) (i t : ℕ),
      price_path gauss c i (t + 1) =
        price_path gauss c i t *
          Real.exp ((c.r - 0.5 * c.sigma ^ 2) * time_unit c +
            c.sigma * Real.sqrt (time_unit c) *
              draws gauss ⟨100, 0⟩ (i * c.M + (t + 1)))) ∧
    (∀ (gauss : ℕ → ℕ → ℝ) (c : Contract) (x : ℝ),
      price_path gauss { c with div := x } = price_path gauss c) ∧
    (∀ (gauss : ℕ → ℕ → ℝ) (c : Contract) (i : Fin c.simulations)
        (t : Fin c.M),
      price_path_matrix gauss c i t = price_path gauss c i.1 t.1) := by
  refine ⟨?_, ?_, ?_, ?_⟩
  · intro gauss c i
    simp [price_path, price_path_seeded, price_path_from_draws, gbm_step,
      Finset.prod_range_one]
  · intro gauss c i t
    simp only [price_path, price_path_seeded, price_path_from_draws, gbm_step,
      Finset.prod_range_succ]
    ring
  · intro gauss c x
    rfl
  · intro gauss c i t
    rfl

/-- Claim C5: one access of the `price_path` property reseeds the generator
with the fixed default seed 100, so the produced matrix does not depend on
the incoming generator state — every access yields exactly the same matrix,
namely the seed-100 matrix — and both estimators are the path-matrix
functionals `value_from` / `value_with_control_variate_from` applied to that
one matrix, so they observe identical underlying random paths. -/
theorem price_path_reproducible :
    (∀ (gauss : ℕ → ℕ → ℝ) (c : Contract) (st₁ st₂ : RNGState),
      (price_path_access gauss c st₁).1 = (price_path_access gauss c st₂).1) ∧
    (∀ (gauss : ℕ → ℕ → ℝ) (c : Contract) (st : RNGState),
      (price_path_access gauss c st).1 = price_path gauss c) ∧
    (∀ (gauss : ℕ → ℕ → ℝ) (c : Contract),
      value gauss c = value_from c (price_path gauss c)) ∧
    (∀ (erf : ℝ → ℝ) (gauss : ℕ → ℕ → ℝ) (c : Contract),
      value_with_control_variate erf gauss c =
        value_with_control_variate_from erf c (price_path gauss c)) :=
  ⟨fun _ _ _ _ => rfl, fun _ _ _ => rfl, fun _ _ => rfl, fun _ _ _ => rfl⟩

/-- Claim C10: `GeometricAsianOption` never consults `option_type` — it is
the call-form analytic expression with no put branch — so two contracts
differing only in `option_type` get the same analytic value, and for a put
contract `value_with_control_variate` corrects the *put* payoff vector using
the geometric *call* price as the analytic baseline. -/
theorem GeometricAsianOption_ignores_option_type :
    (∀ (erf : ℝ → ℝ) (c : Contract) (ot : OptionType),
      GeometricAsianOption erf { c with option_type := ot } =
        GeometricAsianOption erf c) ∧
    (∀ (erf : ℝ → ℝ) (c : Contract),
      GeometricAsianOption erf { c with option_type := OptionType.put } =
        GeometricAsianOption erf { c with option_type := OptionType.call }) ∧
    (∀ (erf : ℝ → ℝ) (gauss : ℕ → ℕ → ℝ) (c : Contract) (i : ℕ),
      controlVariateVector erf { c with option_type := OptionType.put }
          (price_path gauss { c with option_type := OptionType.put }) i =
        discount c *
            max (c.strike - (∑ t in Finset.range c.M,
              price_path gauss { c with option_type := OptionType.put } i t) / (c.M : ℝ)) 0 +
          GeometricAsianOption erf { c with option_type := OptionType.call } -
          discount c *
            max (c.strike - geometric_average_from c
              (price_path gauss { c with option_type := OptionType.put }) i) 0) := by
  refine ⟨fun _ _ _ => rfl, fun _ _ => rfl, ?_⟩
  intro erf gauss c i
  simp only [controlVariateVector, MCPayoff_from, MCpayoff_geometric_from,
    geometric_average_from, discount]
  rw [if_neg (by decide : ¬(OptionType.put = OptionType.call)),
    if_neg (by decide : ¬(OptionType.put = OptionType.call))]
  rfl

/-- Claim C3: `GeometricAsianOption` equals the closed-form expression of
§4.3 exactly as the spec words it (`GeometricAsianOptionSpecForm`), and it
is deterministic and independent of the `simulations` parameter (it takes no
random stream at all, so seed-independence is a fact of its type). -/
theorem GeometricAsianOption_matches_spec :
    (∀ (erf : ℝ → ℝ) (c : Contract),
      GeometricAsianOption erf c = GeometricAsianOptionSpecForm erf c) ∧
    (∀ (erf : ℝ → ℝ) (c : Contract) (s : ℕ),
      GeometricAsianOption erf { c with simulations := s } =
        GeometricAsianOption erf c) := by
  refine ⟨?_, fun _ _ _ => rfl⟩
  intro erf c
  simp only [GeometricAsianOption, GeometricAsianOptionSpecForm, sigsqT, muT,
    discount]
  have h6 : 6 * (c.M : ℝ) * (c.M : ℝ) = 6 * (c.M : ℝ) ^ 2 := by ring
  rw [h6]
  ring_nf

/-! ### The constructor's actual error behaviour -/

/-- The raw negativity chain evaluates to `False` on in-bound numerics. -/
theorem negChain_ok_false {s0 k t rr dv sv : ℝ} (h0 : 0 ≤ s0) (h1 : 0 ≤ k)
    (h2 : 0 < t) (h3 : 0 ≤ rr) (h4 : 0 ≤ dv) (h5 : 0 ≤ sv) :
    negChain (.num s0) (.num k) (.num t) (.num rr) (.num dv) (.num sv) =
      .ok false := by
  simp only [negChain]
  rw [if_neg (not_lt.mpr h0), if_neg (not_lt.mpr h1), if_neg (not_le.mpr h2),
    if_neg (not_lt.mpr h3), if_neg (not_lt.mpr h4), if_neg (not_lt.mpr h5)]

/-- The raw negativity chain evaluates to `True` when some bound fails. -/
theorem negChain_ok_true {s0 k t rr dv sv : ℝ}
    (hd : s0 < 0 ∨ k < 0 ∨ t ≤ 0 ∨ rr < 0 ∨ dv < 0 ∨ sv < 0) :
    negChain (.num s0) (.num k) (.num t) (.num rr) (.num dv) (.num sv) =
      .ok true := by
  simp only [negChain]
  split_ifs with a b c' d' e' f' <;> try rfl
  exfalso
  rcases hd with h | h | h | h | h | h
  · exact a h
  · exact b h
  · exact c' h
  · exact d' h
  · exact e' h
  · exact f' h

/-- Claim C7 (amended): on fully numeric inputs the constructor raises
`ValueError` exactly when `option_type` is invalid or one of
`S0, strike, r, div, sigma` is negative or `T ≤ 0`; positivity of `M` and
`simulations` is *not* validated — when the checks pass, `int(M) = 0` raises
`ZeroDivisionError` at `T / float(M)`, and every other value of `M` and
`simulations` (including negative `M` and `simulations ≤ 0`) yields a fully
constructed object. -/
theorem construct_characterization (ot : String)
    (s0 k t m rr dv sv sim : ℝ) :
    (¬(ot = "call" ∨ ot = "put") →
      mkAsianOptionMC ot (.num s0) (.num k) (.num t) (.num m) (.num rr)
        (.num dv) (.num sv) (.num sim) = .err .valueError) ∧
    ((ot = "call" ∨ ot = "put") →
      (s0 < 0 ∨ k < 0 ∨ t ≤ 0 ∨ rr < 0 ∨ dv < 0 ∨ sv < 0) →
      mkAsianOptionMC ot (.num s0) (.num k) (.num t) (.num m) (.num rr)
        (.num dv) (.num sv) (.num sim) = .err .valueError) ∧
    ((ot = "call" ∨ ot = "put") → 0 ≤ s0 → 0 ≤ k → 0 < t → 0 ≤ rr → 0 ≤ dv →
      0 ≤ sv → pyInt m = 0 →
      mkAsianOptionMC ot (.num s0) (.num k) (.num t) (.num m) (.num rr)
        (.num dv) (.num sv) (.num sim) = .err .zeroDivisionError) ∧
    ((ot = "call" ∨ ot = "put") → 0 ≤ s0 → 0 ≤ k → 0 < t → 0 ≤ rr → 0 ≤ dv →
      0 ≤ sv → pyInt m ≠ 0 →
      ∃ o, mkAsianOptionMC ot (.num s0) (.num k) (.num t) (.num m) (.num rr)
          (.num dv) (.num sv) (.num sim) = .ok o ∧
        isFullyConstructed o = true) := by
  have hsplit : ∀ (P : Prop), (ot = "call" ∨ ot = "put") →
      ¬(ot ≠ "call" ∧ ot ≠ "put") := by
    intro _ h hc
    rcases h with h | h
    · exact hc.1 h
    · exact hc.2 h
  refine ⟨?_, ?_, ?_, ?_⟩
  · intro h
    push_neg at h
    simp only [mkAsianOptionMC]
    rw [if_pos h]
  · intro hot hd
    simp only [mkAsianOptionMC, negChain_ok_true hd]
    rw [if_neg (hsplit True hot)]
  · intro hot h0 h1 h2 h3 h4 h5 hm
    simp only [mkAsianOptionMC, negChain_ok_false h0 h1 h2 h3 h4 h5]
    rw [if_neg (hsplit True hot)]
    simp only [tryBlock, RV.isNum, RV.toR, RV.toZ, Bool.and_self, if_true]
    rw [if_pos hm]
  · intro hot h0 h1 h2 h3 h4 h5 hm
    simp only [mkAsianOptionMC, negChain_ok_false h0 h1 h2 h3 h4 h5]
    rw [if_neg (hsplit True hot)]
    simp only [tryBlock, RV.isNum, RV.toR, RV.toZ, Bool.and_self, if_true]
    rw [if_neg hm]
    exact ⟨_, rfl, rfl⟩

/-- Witness for the amended C7: the in-bounds inputs of the §8 fixture but
with `simulations = 0`, for which construction succeeds in full. -/
theorem construct_characterization_witness :
    ((("call" : String) = "call" ∨ ("call" : String) = "put") ∧
      (0 : ℝ) ≤ 4 ∧ (0 : ℝ) ≤ 4 ∧ (0 : ℝ) < 1 ∧ (0 : ℝ) ≤ 0.03 ∧
      (0 : ℝ) ≤ 0 ∧ (0 : ℝ) ≤ 0.25 ∧ pyInt 100 ≠ 0) ∧
    (∃ o, mkAsianOptionMC "call" (.num 4) (.num 4) (.num 1) (.num 100)
        (.num 0.03) (.num 0) (.num 0.25) (.num 0) = .ok o ∧
      isFullyConstructed o = true) :=
  ⟨⟨Or.inl rfl, by norm_num, by norm_num, by norm_num, by norm_num,
      by norm_num, by norm_num, by norm_num [pyInt]⟩,
    (construct_characterization "call" 4 4 1 100 0.03 0 0.25 0).2.2.2
      (Or.inl rfl) (by norm_num) (by norm_num) (by norm_num) (by norm_num)
      (by norm_num) (by norm_num) (by norm_num [pyInt])⟩

/-- Claim C7 (counterexample): the claim requires construction to fail with
`InvalidParameter` when `simulations` is not a positive integer, but the
code never checks `simulations`: with `simulations = 0` (all other inputs
the §8 fixture's) construction succeeds and returns a fully constructed
object whose `simulations` attribute is `0`. -/
theorem construct_counterexample :
    ∃ o, mkAsianOptionMC "call" (.num 4) (.num 4) (.num 1) (.num 100)
        (.num 0.03) (.num 0) (.num 0.25) (.num 0) = .ok o ∧
      isFullyConstructed o = true ∧ o.simulations = some 0 := by
  have hchain : negChain (.num (4 : ℝ)) (.num 4) (.num 1) (.num 0.03)
      (.num 0) (.num 0.25) = .ok false :=
    negChain_ok_false (by norm_num) (by norm_num) (by norm_num) (by norm_num)
      (by norm_num) (by norm_num)
  simp only [mkAsianOptionMC, hchain]
  rw [if_neg (by simp : ¬(("call" : String) ≠ "call" ∧ ("call" : String) ≠ "put"))]
  simp only [tryBlock, RV.isNum, RV.toR, RV.toZ, Bool.and_self, if_true]
  rw [if_neg (by norm_num [pyInt] : ¬(pyInt (100 : ℝ) = 0))]
  refine ⟨_, rfl, rfl, ?_⟩
  norm_num [pyInt]

/-- Claim C8 (amended): a numeric-coercion `ValueError` is caught inside
`__init__` and only printed, never re-raised as a distinct
`ParameterTypeError`.  What then escapes depends on which argument was
non-numeric (the other inputs being in bounds): `S0, strike, T, r, div,
sigma` raise a bare `TypeError` when the raw value reaches its negativity
comparison; `M` raises `AttributeError` at `self.T / float(self.M)`; and a
non-numeric `simulations` raises nothing at all — the constructor returns a
partially initialised object whose `simulations` attribute was never set. -/
theorem construct_coercion_behaviour (s0 k t m rr dv sv sim : ℝ)
    (h0 : 0 ≤ s0) (h1 : 0 ≤ k) (h2 : 0 < t) (h3 : 0 ≤ rr) (h4 : 0 ≤ dv)
    (h5 : 0 ≤ sv) (hm : pyInt m ≠ 0) :
    (mkAsianOptionMC "call" .bad (.num k) (.num t) (.num m) (.num rr)
      (.num dv) (.num sv) (.num sim) = .err .typeError) ∧
    (mkAsianOptionMC "call" (.num s0) .bad (.num t) (.num m) (.num rr)
      (.num dv) (.num sv) (.num sim) = .err .typeError) ∧
    (mkAsianOptionMC "call" (.num s0) (.num k) .bad (.num m) (.num rr)
      (.num dv) (.num sv) (.num sim) = .err .typeError) ∧
    (mkAsianOptionMC "call" (.num s0) (.num k) (.num t) (.num m) .bad
      (.num dv) (.num sv) (.num sim) = .err .typeError) ∧
    (mkAsianOptionMC "call" (.num s0) (.num k) (.num t) (.num m) (.num rr)
      .bad (.num sv) (.num sim) = .err .typeError) ∧
    (mkAsianOptionMC "call" (.num s0) (.num k) (.num t) (.num m) (.num rr)
      (.num dv) .bad (.num sim) = .err .typeError) ∧
    (mkAsianOptionMC "call" (.num s0) (.num k) (.num t) .bad (.num rr)
      (.num dv) (.num sv) (.num sim) = .err .attributeError) ∧
    (∃ o, mkAsianOptionMC "call" (.num s0) (.num k) (.num t) (.num m)
        (.num rr) (.num dv) (.num sv) .bad = .ok o ∧
      o.simulations = none ∧ isFullyConstructed o = false) := by
  have hot : ¬(("call" : String) ≠ "call" ∧ ("call" : String) ≠ "put") := by
    simp
  refine ⟨?_, ?_, ?_, ?_, ?_, ?_, ?_, ?_⟩
  · simp only [mkAsianOptionMC, negChain]
    rw [if_neg hot]
  · simp only [mkAsianOptionMC, negChain]
    rw [if_neg hot, if_neg (not_lt.mpr h0)]
  · simp only [mkAsianOptionMC, negChain]
    rw [if_neg hot, if_neg (not_lt.mpr h0), if_neg (not_lt.mpr h1)]
  · simp only [mkAsianOptionMC, negChain]
    rw [if_neg hot, if_neg (not_lt.mpr h0), if_neg (not_lt.mpr h1),
      if_neg (not_le.mpr h2)]
  · simp only [mkAsianOptionMC, negChain]
    rw [if_neg hot, if_neg (not_lt.mpr h0), if_neg (not_lt.mpr h1),
      if_neg (not_le.mpr h2), if_neg (not_lt.mpr h3)]
  · simp only [mkAsianOptionMC, negChain]
    rw [if_neg hot, if_neg (not_lt.mpr h0), if_neg (not_lt.mpr h1),
      if_neg (not_le.mpr h2), if_neg (not_lt.mpr h3), if_neg (not_lt.mpr h4)]
  · simp only [mkAsianOptionMC, negChain_ok_false h0 h1 h2 h3 h4 h5]
    rw [if_neg hot]
    simp only [tryBlock, RV.isNum, RV.toR, RV.toZ, Bool.and_self,
      Bool.and_false, Bool.false_and, if_true, if_false]
  · simp only [mkAsianOptionMC, negChain_ok_false h0 h1 h2 h3 h4 h5]
    rw [if_neg hot]
    simp only [tryBlock, RV.isNum, RV.toR, RV.toZ, Bool.and_self, if_true]
    rw [if_neg hm]
    exact ⟨_, rfl, rfl, rfl⟩

/-- Witness for the amended C8 at the §8 fixture's numeric values. -/
theorem construct_coercion_behaviour_witness :
    ((0 : ℝ) ≤ 4 ∧ (0 : ℝ) ≤ 4 ∧ (0 : ℝ) < 1 ∧ (0 : ℝ) ≤ 0.03 ∧
      (0 : ℝ) ≤ 0 ∧ (0 : ℝ) ≤ 0.25 ∧ pyInt 100 ≠ 0) ∧
    (∃ o, mkAsianOptionMC "call" (.num 4) (.num 4) (.num 1) (.num 100)
        (.num 0.03) (.num 0) (.num 0.25) .bad = .ok o ∧
      o.simulations = none ∧ isFullyConstructed o = false) :=
  ⟨⟨by norm_num, by norm_num, by norm_num, by norm_num, by norm_num,
      by norm_num, by norm_num [pyInt]⟩,
    (construct_coercion_behaviour 4 4 1 100 0.03 0 0.25 10000 (by norm_num)
        (by norm_num) (by norm_num) (by norm_num) (by norm_num) (by norm_num)
        (by norm_num [pyInt])).2.2.2.2.2.2.2⟩

/-- Claim C8 (counterexample): with a non-numeric `simulations` (the other
inputs the §8 fixture's) the constructor raises nothing — no
`ParameterTypeError`, no exception at all — and returns a partially
initialised object with no `simulations` attribute. -/
theorem construct_coercion_counterexample :
    ∃ o, mkAsianOptionMC "call" (.num 4) (.num 4) (.num 1) (.num 100)
        (.num 0.03) (.num 0) (.num 0.25) .bad = .ok o ∧
      o.simulations = none ∧ isFullyConstructed o = false := by
  have hchain : negChain (.num (4 : ℝ)) (.num 4) (.num 1) (.num 0.03)
      (.num 0) (.num 0.25) = .ok false :=
    negChain_ok_false (by norm_num) (by norm_num) (by norm_num) (by norm_num)
      (by norm_num) (by norm_num)
  simp only [mkAsianOptionMC, hchain]
  rw [if_neg (by simp : ¬(("call" : String) ≠ "call" ∧ ("call" : String) ≠ "put"))]
  simp only [tryBlock, RV.isNum, RV.toR, RV.toZ, Bool.and_self, if_true]
  rw [if_neg (by norm_num [pyInt] : ¬(pyInt (100 : ℝ) = 0))]
  exact ⟨_, rfl, rfl, rfl⟩

/-- Claim C9 (amended): construction-time validation admits `strike = 0`,
`S0 = 0` and `sigma = 0`, and on those contracts `GeometricAsianOption`
*does* hit undefined operations (`strike = 0` raises `ZeroDivisionError` at
the plain-float division `S0/strike`; `S0 = 0` takes `log 0`; `sigma = 0`
divides by `√sigsqT = 0`).  Only for validated contracts with `S0`, `strike`
and `sigma` all positive is the formula well-defined: `sigsqT` is positive,
the argument of the logarithm is positive, and the checked evaluator
returns the closed-form value. -/
theorem geometric_eval_safe (erf : ℝ → ℝ) (c : Contract) (h : Valid c)
    (h1 : 0 < c.S0) (h2 : 0 < c.strike) (h3 : 0 < c.sigma) :
    0 < sigsqT c ∧ 0 < c.S0 / c.strike ∧
      GeometricAsianOptionEval erf c = .ok (GeometricAsianOption erf c) := by
  obtain ⟨-, -, hT, hM, -, -, -, -⟩ := h
  have hMR : (0 : ℝ) < (c.M : ℝ) := by exact_mod_cast hM
  refine ⟨?_, div_pos h1 h2, ?_⟩
  · unfold sigsqT
    positivity
  · unfold GeometricAsianOptionEval
    rw [if_neg (ne_of_gt h2), if_neg (ne_of_gt h1), if_neg (ne_of_gt h3)]

/-- Witness for the amended C9 at the §8 fixture contract. -/
theorem geometric_eval_safe_witness :
    (Valid cFixture ∧ 0 < cFixture.S0 ∧ 0 < cFixture.strike ∧
      0 < cFixture.sigma) ∧
    (0 < sigsqT cFixture ∧ 0 < cFixture.S0 / cFixture.strike ∧
      GeometricAsianOptionEval (fun _ => 0) cFixture =
        .ok (GeometricAsianOption (fun _ => 0) cFixture)) :=
  ⟨⟨by norm_num [Valid, cFixture], by norm_num [cFixture],
      by norm_num [cFixture], by norm_num [cFixture]⟩,
    geometric_eval_safe (fun _ => 0) cFixture (by norm_num [Valid, cFixture])
      (by norm_num [cFixture]) (by norm_num [cFixture])
      (by norm_num [cFixture])⟩

/-- Claim C9 (counterexample): `strike = 0` passes construction-time
validation (only `strike < 0` is rejected), yet `GeometricAsianOption`
evaluates `np.log(self.S0 / self.strike)` — a plain-Python float division —
and raises `ZeroDivisionError`, so a validated contract does *not* make
every downstream query execute without error. -/
theorem geometric_eval_counterexample :
    Valid cStrikeZero ∧
      GeometricAsianOptionEval (fun _ => 0) cStrikeZero =
        .error .zeroDivisionError := by
  constructor
  · norm_num [Valid, cStrikeZero, cFixture]
  · unfold GeometricAsianOptionEval
    rw [if_pos (show cStrikeZero.strike = 0 from rfl)]

/-! ### Variance of the control-variate estimator -/

/-- Mean of `a + C - g` in terms of the means of `a` and `g`. -/
theorem vmean_shift (n : ℕ) (hn : n ≠ 0) (a g : ℕ → ℝ) (C : ℝ) :
    vmean n (fun i => a i + C - g i) = vmean n a + C - vmean n g := by
  have hn' : ((n : ℝ)) ≠ 0 := Nat.cast_ne_zero.mpr hn
  unfold vmean
  rw [Finset.sum_sub_distrib, Finset.sum_add_distrib, Finset.sum_const,
    Finset.card_range, nsmul_eq_mul]
  field_simp
  ring

/-- Population variance of the corrected vector `a + C - g`:
`Var(a) + Var(g) - 2·Cov(a, g)` — adding the constant changes nothing. -/
theorem vvar_shift_sub (n : ℕ) (hn : n ≠ 0) (a g : ℕ → ℝ) (C : ℝ) :
    vvar n (fun i => a i + C - g i) =
      vvar n a + vvar n g - 2 * vcov n a g := by
  have hm := vmean_shift n hn a g C
  unfold vvar vcov
  have key : ∀ i ∈ Finset.range n,
      ((fun i => a i + C - g i) i - vmean n (fun i => a i + C - g i)) ^ 2 =
        (a i - vmean n a) ^ 2 + (g i - vmean n g) ^ 2 -
          2 * ((a i - vmean n a) * (g i - vmean n g)) := by
    intro i _
    simp only
    rw [hm]
    ring
  rw [Finset.sum_congr rfl key, Finset.sum_sub_distrib,
    Finset.sum_add_distrib, ← Finset.mul_sum]
  ring

/-- The plain estimator's confidence-interval width. -/
theorem ciWidth_value_from (c : Contract) (paths : ℕ → ℕ → ℝ) :
    ciWidth (value_from c paths) =
      2 * (1.96 * vstd c.simulations (MCPayoff_from c paths) /
        Real.sqrt (c.simulations : ℝ)) := by
  unfold ciWidth value_from
  ring

/-- The control-variate estimator's confidence-interval width. -/
theorem ciWidth_cv_from (erf : ℝ → ℝ) (c : Contract) (paths : ℕ → ℕ → ℝ) :
    ciWidth (value_with_control_variate_from erf c paths) =
      2 * (1.96 * vstd c.simulations (controlVariateVector erf c paths) /
        Real.sqrt (c.simulations : ℝ)) := by
  unfold ciWidth value_with_control_variate_from
  ring

/-- Claim C6 (amended): the control-variate interval is no wider than the
plain one exactly under the second-moment condition
`Var(G) ≤ 2·Cov(A, G)` on the sampled payoff vectors (`A` arithmetic, `G`
geometric) — a condition strictly stronger than positive correlation, which
alone does not suffice (see the counterexample). -/
theorem cv_variance_reduction (erf : ℝ → ℝ) (gauss : ℕ → ℕ → ℝ)
    (c : Contract) (hn : 1 ≤ c.simulations)
    (hcv : vvar c.simulations
        (MCpayoff_geometric_from c (price_path gauss c)) ≤
      2 * vcov c.simulations (MCPayoff_from c (price_path gauss c))
        (MCpayoff_geometric_from c (price_path gauss c))) :
    ciWidth (value_with_control_variate erf gauss c) ≤
      ciWidth (value gauss c) := by
  have hn0 : c.simulations ≠ 0 := by omega
  have hV : controlVariateVector erf c (price_path gauss c) =
      fun i => MCPayoff_from c (price_path gauss c) i +
        GeometricAsianOption erf c -
          MCpayoff_geometric_from c (price_path gauss c) i := rfl
  have hvar : vvar c.simulations
      (controlVariateVector erf c (price_path gauss c)) ≤
      vvar c.simulations (MCPayoff_from c (price_path gauss c)) := by
    rw [hV, vvar_shift_sub c.simulations hn0 _ _ (GeometricAsianOption erf c)]
    linarith
  have hstd : vstd c.simulations
      (controlVariateVector erf c (price_path gauss c)) ≤
      vstd c.simulations (MCPayoff_from c (price_path gauss c)) :=
    Real.sqrt_le_sqrt hvar
  show ciWidth (value_with_control_variate_from erf c (price_path gauss c)) ≤
    ciWidth (value_from c (price_path gauss c))
  rw [ciWidth_cv_from, ciWidth_value_from]
  gcongr

/-- Witness for the amended C6 at the concrete contract `cW` (one path:
variance and covariance are both zero, so the condition holds). -/
theorem cv_variance_reduction_witness :
    (1 ≤ cW.simulations ∧
      vvar cW.simulations
          (MCpayoff_geometric_from cW (price_path (fun _ _ => 0) cW)) ≤
        2 * vcov cW.simulations
          (MCPayoff_from cW (price_path (fun _ _ => 0) cW))
          (MCpayoff_geometric_from cW (price_path (fun _ _ => 0) cW))) ∧
    ciWidth (value_with_control_variate (fun _ => 0) (fun _ _ => 0) cW) ≤
      ciWidth (value (fun _ _ => 0) cW) :=
  ⟨⟨by norm_num [cW],
      by norm_num [cW, vvar, vcov, vmean, Finset.sum_range_one]⟩,
    cv_variance_reduction (fun _ => 0) (fun _ _ => 0) cW (by norm_num [cW])
      (by norm_num [cW, vvar, vcov, vmean, Finset.sum_range_one])⟩

/-- Under `cVR` the drift term vanishes and the volatility coefficient is 1,
so each cumulative-product factor is `exp` of the raw draw. -/
theorem gbm_step_cVR (z : ℝ) : gbm_step cVR z = Real.exp z := by
  unfold gbm_step time_unit cVR
  congr 1
  push_cast
  rw [Real.sq_sqrt (by norm_num : (0 : ℝ) ≤ 2),
    ← Real.sqrt_mul (by norm_num : (0 : ℝ) ≤ 2)]
  norm_num

/-- First step of the first path: `exp(log(101/20)) = 5.05`. -/
theorem cVR_path_00 : price_path gaussVR cVR 0 0 = 101 / 20 := by
  simp only [price_path, price_path_seeded, price_path_from_draws,
    Finset.prod_range_one, gbm_step_cVR, draws]
  norm_num [cVR, gaussVR]
  exact Real.exp_log (by norm_num)

/-- Second step of the first path: the second draw is 0. -/
theorem cVR_path_01 : price_path gaussVR cVR 0 1 = 101 / 20 := by
  simp only [price_path, price_path_seeded, price_path_from_draws,
    Finset.prod_range_succ, Finset.prod_range_one, gbm_step_cVR, draws]
  norm_num [cVR, gaussVR, Real.exp_zero]
  exact Real.exp_log (by norm_num)

/-- First step of the second path: `exp(log 8) = 8`. -/
theorem cVR_path_10 : price_path gaussVR cVR 1 0 = 8 := by
  simp only [price_path, price_path_seeded, price_path_from_draws,
    Finset.prod_range_one, gbm_step_cVR, draws]
  norm_num [cVR, gaussVR]
  exact Real.exp_log (by norm_num)

/-- Second step of the second path: `exp(log 8)·exp(log 2 − log 8) = 2`. -/
theorem cVR_path_11 : price_path gaussVR cVR 1 1 = 2 := by
  simp only [price_path, price_path_seeded, price_path_from_draws,
    Finset.prod_range_succ, Finset.prod_range_one, gbm_step_cVR, draws]
  norm_num [cVR, gaussVR]
  rw [← Real.exp_add,
    show Real.log 8 + (Real.log 2 - Real.log 8) = Real.log 2 by ring]
  exact Real.exp_log (by norm_num)

/-- The discount factor of `cVR`. -/
theorem discount_cVR : discount cVR = Real.exp (-1) := by
  norm_num [discount, cVR]

/-- Arithmetic payoff of the first path: average `5.05`, strike 1. -/
theorem cVR_A0 :
    MCPayoff_from cVR (price_path gaussVR cVR) 0 = Real.exp (-1) * (81 / 20) := by
  unfold MCPayoff_from
  rw [if_pos (show cVR.option_type = OptionType.call from rfl),
    show cVR.M = 2 from rfl, Finset.sum_range_succ, Finset.sum_range_one,
    cVR_path_00, cVR_path_01, discount_cVR,
    show cVR.strike = (1 : ℝ) from rfl,
    show (101 / 20 + 101 / 20 : ℝ) / ((2 : ℕ) : ℝ) - 1 = 81 / 20 by
      push_cast; norm_num,
    max_eq_left (by norm_num : (0 : ℝ) ≤ 81 / 20)]

/-- Arithmetic payoff of the second path: average `5`, strike 1. -/
theorem cVR_A1 :
    MCPayoff_from cVR (price_path gaussVR cVR) 1 = Real.exp (-1) * 4 := by
  unfold MCPayoff_from
  rw [if_pos (show cVR.option_type = OptionType.call from rfl),
    show cVR.M = 2 from rfl, Finset.sum_range_succ, Finset.sum_range_one,
    cVR_path_10, cVR_path_11, discount_cVR,
    show cVR.strike = (1 : ℝ) from rfl,
    show (8 + 2 : ℝ) / ((2 : ℕ) : ℝ) - 1 = 4 by push_cast; norm_num,
    max_eq_left (by norm_num : (0 : ℝ) ≤ 4)]

/-- Geometric payoff of the first path: geometric average `5.05`. -/
theorem cVR_G0 :
    MCpayoff_geometric_from cVR (price_path gaussVR cVR) 0 =
      Real.exp (-1) * (81 / 20) := by
  unfold MCpayoff_geometric_from geometric_average_from
  rw [if_pos (show cVR.option_type = OptionType.call from rfl),
    show cVR.M = 2 from rfl, Finset.sum_range_succ, Finset.sum_range_one,
    cVR_path_00, cVR_path_01, discount_cVR,
    show (1 / ((2 : ℕ) : ℝ)) * (Real.log (101 / 20) + Real.log (101 / 20)) =
      Real.log (101 / 20) by push_cast; ring,
    Real.exp_log (by norm_num : (0 : ℝ) < 101 / 20),
    show cVR.strike = (1 : ℝ) from rfl,
    show (101 / 20 : ℝ) - 1 = 81 / 20 by norm_num,
    max_eq_left (by norm_num : (0 : ℝ) ≤ 81 / 20)]

/-- Geometric payoff of the second path: geometric average
`exp((1/2)(log 8 + log 2)) = 4`. -/
theorem cVR_G1 :
    MCpayoff_geometric_from cVR (price_path gaussVR cVR) 1 =
      Real.exp (-1) * 3 := by
  unfold MCpayoff_geometric_from geometric_average_from
  rw [if_pos (show cVR.option_type = OptionType.call from rfl),
    show cVR.M = 2 from rfl, Finset.sum_range_succ, Finset.sum_range_one,
    cVR_path_10, cVR_path_11, discount_cVR,
    show (1 / ((2 : ℕ) : ℝ)) * (Real.log 8 + Real.log 2) = Real.log 4 by
      rw [← Real.log_mul (by norm_num) (by norm_num),
        show (8 : ℝ) * 2 = 4 ^ 2 by norm_num, Real.log_pow]
      push_cast; ring,
    Real.exp_log (by norm_num : (0 : ℝ) < 4),
    show cVR.strike = (1 : ℝ) from rfl,
    show (4 : ℝ) - 1 = 3 by norm_num,
    max_eq_left (by norm_num : (0 : ℝ) ≤ 3)]

/-- Claim C6 (counterexample): a valid contract and a realizable draw
sequence on which the per-path arithmetic and geometric payoff vectors are
*positively correlated* (their sample covariance is positive) and yet the
control-variate confidence interval is strictly *wider* than the plain one:
the sample `(A, G) = (e·81/20, e·81/20), (e·4, e·3)` has tiny arithmetic
spread but large geometric spread, so subtracting the geometric payoff adds
variance. -/
theorem cv_width_counterexample :
    Valid cVR ∧
    0 < vcov 2 (MCPayoff_from cVR (price_path gaussVR cVR))
        (MCpayoff_geometric_from cVR (price_path gaussVR cVR)) ∧
    ciWidth (value gaussVR cVR) <
      ciWidth (value_with_control_variate (fun _ => 0) gaussVR cVR) := by
  have he : (0 : ℝ) < Real.exp (-1) := Real.exp_pos _
  refine ⟨?_, ?_, ?_⟩
  · simp only [Valid, cVR]
    refine ⟨by norm_num, by norm_num, by norm_num, by norm_num, by norm_num,
      by norm_num, Real.sqrt_nonneg 2, by norm_num⟩
  · unfold vcov vmean
    simp only [Finset.sum_range_succ, Finset.sum_range_one]
    rw [cVR_A0, cVR_A1, cVR_G0, cVR_G1]
    push_cast
    nlinarith [he, mul_pos he he]
  · have hstdA :
        vstd 2 (MCPayoff_from cVR (price_path gaussVR cVR)) =
          Real.exp (-1) / 40 := by
      unfold vstd
      have hv : vvar 2 (MCPayoff_from cVR (price_path gaussVR cVR)) =
          (Real.exp (-1) / 40) ^ 2 := by
        unfold vvar vmean
        simp only [Finset.sum_range_succ, Finset.sum_range_one]
        rw [cVR_A0, cVR_A1]
        push_cast
        ring
      rw [hv]
      exact Real.sqrt_sq (by positivity)
    have hstdV :
        vstd 2 (controlVariateVector (fun _ => 0) cVR (price_path gaussVR cVR)) =
          Real.exp (-1) / 2 := by
      unfold vstd
      have hv : vvar 2 (controlVariateVector (fun _ => 0) cVR (price_path gaussVR cVR)) =
          (Real.exp (-1) / 2) ^ 2 := by
        unfold vvar vmean controlVariateVector
        simp only [Finset.sum_range_succ, Finset.sum_range_one]
        rw [cVR_A0, cVR_A1, cVR_G0, cVR_G1]
        push_cast
        ring
      rw [hv]
      exact Real.sqrt_sq (by positivity)
    show ciWidth (value_from cVR (price_path gaussVR cVR)) <
      ciWidth (value_with_control_variate_from (fun _ => 0) cVR
        (price_path gaussVR cVR))
    rw [ciWidth_value_from, ciWidth_cv_from,
      show cVR.simulations = 2 from rfl, hstdA, hstdV]
    have h2 : (0 : ℝ) < Real.sqrt ((2 : ℕ) : ℝ) :=
      Real.sqrt_pos.mpr (by norm_num)
    have hlt : 1.96 * (Real.exp (-1) / 40) / Real.sqrt ((2 : ℕ) : ℝ) <
        1.96 * (Real.exp (-1) / 2) / Real.sqrt ((2 : ℕ) : ℝ) := by
      rw [div_lt_div_iff_of_pos_right h2]
      nlinarith [he]
    linarith [hlt]

end AsianOptionMC
